import Mathlib

set_option maxRecDepth 4000

/-!
Verification development for the trychlorophyll chat-command pipeline.

The repository contains several redundant variants of the same pipeline:
the Gemini variant (src/bot.js lines 1-381), the Cerebras variant
(src/bot.js lines 382-938), the local-NLP variant (src/unnamed/part_000)
and the ArliAI variant (src/unnamed/part_002).  The definitions below are
shallow embeddings of the relevant functions of those variants; each
definition's doc comment names the source lines it embeds.
-/

namespace Phyll

/-- JSON-like runtime value, modelling the dynamically typed step objects
and parsed planner output that flow through the JavaScript pipeline. -/
inductive Jv where
  | jnull
  | jbool (b : Bool)
  | jnum (n : Int)
  | jstr (s : String)
  | jarr (xs : List Jv)
  | jobj (fields : List (String × Jv))

/-- Field lookup in an object's field list (first binding wins, as in a JS
object literal). -/
def lookupField : List (String × Jv) → String → Option Jv
  | [], _ => none
  | (k, v) :: rest, key => if k = key then some v else lookupField rest key

/-- JS property access `v.key`: on a non-object it yields `undefined`,
modelled as `none`. -/
def jvField : Jv → String → Option Jv
  | Jv.jobj fs, key => lookupField fs key
  | _, _ => none

/-- JS truthiness of a value. -/
def jvTruthy : Jv → Bool
  | Jv.jnull => false
  | Jv.jbool b => b
  | Jv.jnum n => if n = 0 then false else true
  | Jv.jstr s => if s = "" then false else true
  | Jv.jarr _ => true
  | Jv.jobj _ => true

/-- Value of a maximal run of leading decimal digits, or `none` if there is
no leading digit (JS `parseInt` returning `NaN`). -/
def parseDigits (cs : List Char) : Option Nat :=
  let ds := cs.takeWhile Char.isDigit
  if ds.isEmpty then none
  else some (ds.foldl (fun a c => a * 10 + (c.toNat - 48)) 0)

/-- Leading optionally-signed integer of a character sequence, as JS
`parseInt` reads it after trimming leading whitespace. -/
def parseIntChars : List Char → Option Int
  | '-' :: rest => (parseDigits rest).map (fun n => -(n : Int))
  | '+' :: rest => (parseDigits rest).map (fun n => (n : Int))
  | cs => (parseDigits cs).map (fun n => (n : Int))

/-- JS `parseInt(v)` on a runtime value: integers pass through, strings are
parsed for a leading integer, everything else is `NaN` (`none`). -/
def jsParseInt : Jv → Option Int
  | Jv.jnum n => some n
  | Jv.jstr s => parseIntChars (s.toList.dropWhile Char.isWhitespace)
  | _ => none

/-- JS `e || dflt` applied to a `parseInt` result: `NaN` and `0` are falsy
and are replaced by the default. -/
def jsFalsyIntDefault (dflt : Int) (o : Option Int) : Int :=
  match o with
  | none => dflt
  | some v => if v = 0 then dflt else v

/-- Executed wait duration of the Cerebras executeSteps `case 'wait'`
(src/bot.js line 697) and of src/unnamed/part_000 line 328:
`Math.max(1, Math.min(30, parseInt(step.seconds, 10) || 1))`.
The argument is the step's `seconds` field (`none` = field absent). -/
def waitSecondsCerebras (v : Option Jv) : Int :=
  max 1 (min 30 (jsFalsyIntDefault 1 (v.bind jsParseInt)))

/-- Executed wait duration of the Gemini executeSteps `case 'wait'`
(src/bot.js line 170): `Math.max(1, Math.min(300, parseInt(step.seconds) || 1))`. -/
def waitSecondsGemini (v : Option Jv) : Int :=
  max 1 (min 300 (jsFalsyIntDefault 1 (v.bind jsParseInt)))

/-- C3 counterexample: the Gemini-variant wait clamp is `[1, 300]`, not
`[1, 30]`: a Wait step with `seconds = 100` executes a 100-second wait. -/
theorem c3_counterexample :
    waitSecondsGemini (some (Jv.jnum 100)) = 100 ∧
    ¬ waitSecondsGemini (some (Jv.jnum 100)) ≤ 30 := by
  constructor
  · rfl
  · decide

/-- C3 (amended): in the Cerebras executeSteps and in src/unnamed/part_000
the executed wait duration is clamped into `[1, 30]` for every input, with
zero, negative and non-numeric seconds defaulting to 1; the Gemini variant
instead clamps into `[1, 300]`. -/
theorem c3_wait_clamp :
    (∀ v : Option Jv,
      1 ≤ waitSecondsCerebras v ∧ waitSecondsCerebras v ≤ 30) ∧
    waitSecondsCerebras (some (Jv.jnum 0)) = 1 ∧
    waitSecondsCerebras (some (Jv.jnum (-7))) = 1 ∧
    waitSecondsCerebras (some (Jv.jstr "soon")) = 1 ∧
    waitSecondsCerebras none = 1 ∧
    (∀ v : Option Jv,
      1 ≤ waitSecondsGemini v ∧ waitSecondsGemini v ≤ 300) := by
  refine ⟨fun v => ⟨le_max_left _ _, ?_⟩, rfl, rfl, rfl, rfl,
    fun v => ⟨le_max_left _ _, ?_⟩⟩
  · exact max_le (by norm_num) (min_le_left _ _)
  · exact max_le (by norm_num) (min_le_left _ _)

/-- A movement-controller goal: mineflayer-pathfinder `GoalFollow(entity, 1)`
or `GoalBlock(x, y, z)`. -/
inductive Goal where
  | follow (player : String)
  | block (x y z : Int)
deriving DecidableEq

/-- Outcome of executing one step: the outbound chat/whisper lines it sends
and the sequence of `bot.pathfinder.setGoal` calls it performs (`none` is
`setGoal(null)`). -/
structure StepResult where
  replies : List String
  calls : List (Option Goal)
deriving DecidableEq

/-- State of the movement controller after a sequence of `setGoal` calls:
each call replaces the current goal, so the last call wins. -/
def applyCalls (s : Option Goal) (calls : List (Option Goal)) : Option Goal :=
  calls.foldl (fun _ c => c) s

/-- Display form of an optional runtime value, standing in for JS string
interpolation of possibly-undefined fields in diagnostic replies. -/
def jvDisplay : Option Jv → String
  | none => "undefined"
  | some Jv.jnull => "null"
  | some (Jv.jbool b) => if b then "true" else "false"
  | some (Jv.jnum n) => toString n
  | some (Jv.jstr s) => s
  | some (Jv.jarr _) => "[array]"
  | some (Jv.jobj _) => "[object]"

/-- One step of the Cerebras executeSteps switch (src/bot.js lines 628-719),
identical to src/unnamed/part_000 lines 259-350.  `online` is the set of
player names with a live entity (`bot.players[name]?.entity`).  The
try/catch wrapper and the 500 ms pacing delay perform no goal calls and are
omitted; replies interpolating `JSON.stringify(step)` use `jvDisplay`. -/
def cerebrasExecStep (username : String) (online : List String) (step : Jv) :
    StepResult :=
  match jvField step "action" with
  | some (Jv.jstr a) =>
    if a = "follow" then
      match jvField step "player" with
      | some (Jv.jstr p) =>
        if online.contains p then
          ⟨["Following " ++ p ++ "!"], [none, some (Goal.follow p)]⟩
        else
          ⟨["I can\x27t see " ++ p ++ " right now."], []⟩
      | other => ⟨["I can\x27t see " ++ jvDisplay other ++ " right now."], []⟩
    else if a = "goto" then
      match jvField step "x", jvField step "y", jvField step "z" with
      | some (Jv.jnum x), some (Jv.jnum y), some (Jv.jnum z) =>
        if 30000000 < x.natAbs ∨ 30000000 < z.natAbs ∨ y < -64 ∨ 320 < y then
          ⟨["Those coordinates are too far or invalid."], []⟩
        else
          ⟨["Going to " ++ toString x ++ ", " ++ toString y ++ ", " ++
              toString z ++ "!"], [none, some (Goal.block x y z)]⟩
      | _, _, _ => ⟨["Those coordinates don\x27t look right."], []⟩
    else if a = "tpa" then
      match jvField step "player" with
      | some (Jv.jstr p) =>
        if p = "" then ⟨["I need to know who to teleport to."], []⟩
        else ⟨["/tpa " ++ p, "Sent teleport request to " ++ p ++ "!"], []⟩
      | other =>
        if jvTruthy (other.getD Jv.jnull) then
          ⟨["/tpa " ++ jvDisplay other,
            "Sent teleport request to " ++ jvDisplay other ++ "!"], []⟩
        else ⟨["I need to know who to teleport to."], []⟩
    else if a = "wait" then
      let secs := waitSecondsCerebras (jvField step "seconds")
      ⟨["Waiting " ++ toString secs ++ " seconds...", "Done waiting!"], []⟩
    else
      ⟨["I don\x27t know how to do: " ++ a], []⟩
  | other => ⟨["I don\x27t know how to do: " ++ jvDisplay other], []⟩

/-- One step of the Gemini executeSteps switch (src/bot.js lines 156-210).
The `goto` case delegates to `goToAndWait` (lines 213-233), whose only
`setGoal` call installs the block goal directly; its position-polling
replies depend on the live entity position and are omitted.  The `follow`
case delegates to `followFor` (lines 235-246), which installs the follow
goal, sleeps, then clears it. -/
def geminiExecStep (username : String) (online : List String) (step : Jv) :
    StepResult :=
  match jvField step "action" with
  | some (Jv.jstr a) =>
    if a = "wait" then
      let secs := waitSecondsGemini (jvField step "seconds")
      ⟨["Okay, waiting " ++ toString secs ++ "s..."], []⟩
    else if a = "goto" then
      match (jvField step "x").bind jsParseInt, (jvField step "y").bind jsParseInt,
          (jvField step "z").bind jsParseInt with
      | some x, some y, some z =>
        ⟨["On my way to " ++ toString x ++ " " ++ toString y ++ " " ++ toString z],
          [some (Goal.block x y z)]⟩
      | _, _, _ => ⟨["Invalid coordinates: " ++ jvDisplay (some step)], []⟩
    else if a = "follow" then
      let p := match jvField step "player" with
        | some (Jv.jstr s) => if s = "" then username else s
        | _ => username
      let dur := max 1 (jsFalsyIntDefault 15 ((jvField step "seconds").bind jsParseInt))
      if online.contains p then
        ⟨["Following " ++ p ++ " for " ++ toString dur ++ "s",
          "Following " ++ p ++ " for " ++ toString dur ++ "s",
          "Stopped following " ++ p], [some (Goal.follow p), none]⟩
      else
        ⟨["Following " ++ p ++ " for " ++ toString dur ++ "s",
          "I can\x27t see " ++ p ++ " to follow."], []⟩
    else if a = "tpa" then
      let p := match jvField step "player" with
        | some (Jv.jstr s) => if s = "" then username else s
        | _ => username
      ⟨["/tpa " ++ p], []⟩
    else ⟨["I don\x27t know how to do: " ++ jvDisplay (some step)], []⟩
  | _ => ⟨["Skipping invalid step: " ++ jvDisplay (some step)], []⟩

/-- A well-formed goto step object, as the planner contract produces it. -/
def mkGotoStep (x y z : Int) : Jv :=
  Jv.jobj [("action", Jv.jstr "goto"), ("x", Jv.jnum x), ("y", Jv.jnum y),
    ("z", Jv.jnum z)]

/-- A well-formed follow step object. -/
def mkFollowStep (p : String) : Jv :=
  Jv.jobj [("action", Jv.jstr "follow"), ("player", Jv.jstr p)]

/-- C4 counterexample: the Gemini executeSteps `case 'goto'` (src/bot.js
lines 176-187) checks only that the coordinates parse as integers and has
no range check, so a step with `x = 40000000` (beyond the 30000000 bound)
reaches the controller: `setGoal` is invoked with that block goal. -/
theorem c4_counterexample :
    (geminiExecStep "Alice" [] (mkGotoStep 40000000 64 0)).calls =
      [some (Goal.block 40000000 64 0)] ∧
    30000000 < (40000000 : Int).natAbs ∧
    (geminiExecStep "Alice" [] (mkGotoStep 40000000 64 0)).calls ≠ [] := by
  refine ⟨rfl, by decide, ?_⟩
  intro h
  rw [show (geminiExecStep "Alice" [] (mkGotoStep 40000000 64 0)).calls =
    [some (Goal.block 40000000 64 0)] from rfl] at h
  exact List.cons_ne_nil _ _ h

/-- C4 (amended): in the Cerebras executeSteps (and src/unnamed/part_000)
every GotoBlock step with `|x| > 30000000`, `|z| > 30000000`, `y < -64` or
`y > 320` is rejected with a reply and performs no `setGoal` call; the
Gemini variant does not range-check and rejects only non-numeric
coordinates. -/
theorem c4_goto_range_check (u : String) (online : List String) (x y z : Int)
    (h : 30000000 < x.natAbs ∨ 30000000 < z.natAbs ∨ y < -64 ∨ 320 < y) :
    cerebrasExecStep u online (mkGotoStep x y z) =
      ⟨["Those coordinates are too far or invalid."], []⟩ := by
  show (if 30000000 < x.natAbs ∨ 30000000 < z.natAbs ∨ y < -64 ∨ 320 < y then
      (⟨["Those coordinates are too far or invalid."], []⟩ : StepResult)
    else ⟨["Going to " ++ toString x ++ ", " ++ toString y ++ ", " ++
      toString z ++ "!"], [none, some (Goal.block x y z)]⟩) = _
  rw [if_pos h]

/-- C4 witness: a concrete out-of-range goto step is rejected without any
controller call. -/
theorem c4_witness :
    cerebrasExecStep "Alice" [] (mkGotoStep 40000001 64 0) =
      ⟨["Those coordinates are too far or invalid."], []⟩ :=
  c4_goto_range_check "Alice" [] 40000001 64 0 (by decide)

/-- C8 counterexample: the Gemini variant's `goToAndWait` (src/bot.js lines
213-217) installs its block goal without first clearing the prior goal:
the step's `setGoal` trace is the single installing call, never preceded by
`setGoal(null)`, refuting that every goal-setting step clears first. -/
theorem c8_counterexample :
    (geminiExecStep "Alice" [] (mkGotoStep 10 64 10)).calls =
      [some (Goal.block 10 64 10)] ∧
    (geminiExecStep "Alice" [] (mkGotoStep 10 64 10)).calls.head? ≠
      some none := by
  refine ⟨rfl, ?_⟩
  decide

/-- C8 (amended): in the Cerebras executeSteps every successful goal-setting
step issues `setGoal(null)` and then installs its own goal, so executing
goal-setting step B right after step A leaves the controller holding exactly
B's goal; the Gemini variant installs directly without the prior clear, but
since `setGoal` overwrites, the state after its goto step likewise matches
that step only. -/
theorem c8_single_active_goal :
    (∀ u online x y z, ¬(30000000 < x.natAbs ∨ 30000000 < z.natAbs ∨
        y < -64 ∨ 320 < y) →
      (cerebrasExecStep u online (mkGotoStep x y z)).calls =
        [none, some (Goal.block x y z)]) ∧
    (∀ u (online : List String) p, online.contains p = true →
      (cerebrasExecStep u online (mkFollowStep p)).calls =
        [none, some (Goal.follow p)]) ∧
    (∀ (u : String) (online : List String) (A B : Jv) (gA gB : Goal)
        (s : Option Goal),
      (cerebrasExecStep u online A).calls = [none, some gA] →
      (cerebrasExecStep u online B).calls = [none, some gB] →
      applyCalls (applyCalls s (cerebrasExecStep u online A).calls)
        (cerebrasExecStep u online B).calls = some gB) ∧
    (∀ (u : String) (online : List String) (s : Option Goal) (x y z : Int),
      applyCalls s (geminiExecStep u online (mkGotoStep x y z)).calls =
        some (Goal.block x y z)) := by
  refine ⟨?_, ?_, ?_, ?_⟩
  · intro u online x y z h
    show (if 30000000 < x.natAbs ∨ 30000000 < z.natAbs ∨ y < -64 ∨ 320 < y then
        (⟨["Those coordinates are too far or invalid."], []⟩ : StepResult)
      else ⟨["Going to " ++ toString x ++ ", " ++ toString y ++ ", " ++
        toString z ++ "!"], [none, some (Goal.block x y z)]⟩).calls = _
    rw [if_neg h]
  · intro u online p h
    show (if online.contains p then
        (⟨["Following " ++ p ++ "!"], [none, some (Goal.follow p)]⟩ : StepResult)
      else ⟨["I can\x27t see " ++ p ++ " right now."], []⟩).calls = _
    rw [h]
    rfl
  · intro u online A B gA gB s hA hB
    rw [hA, hB]
    rfl
  · intro u online s x y z
    rfl

/-- C8 witness: two concrete successful goal-setting steps in sequence leave
exactly the second step's goal installed. -/
theorem c8_witness :
    applyCalls (applyCalls none
        (cerebrasExecStep "Alice" ["Bob"] (mkGotoStep 10 64 10)).calls)
      (cerebrasExecStep "Alice" ["Bob"] (mkFollowStep "Bob")).calls =
      some (Goal.follow "Bob") :=
  c8_single_active_goal.2.2.1 "Alice" ["Bob"] (mkGotoStep 10 64 10)
    (mkFollowStep "Bob") (Goal.block 10 64 10) (Goal.follow "Bob") none
    (c8_single_active_goal.1 "Alice" ["Bob"] 10 64 10 (by decide))
    (c8_single_active_goal.2.1 "Alice" ["Bob"] "Bob" (by decide))

/-- The 60-second cancellation timer armed by the Cerebras `case 'follow'`
(src/bot.js lines 653-658, identically src/unnamed/part_000 lines 284-289):
when it fires it inspects the controller's current goal and clears it (with
a stopped-following notice naming the step's player) exactly when that goal
is an `instanceof goals.GoalFollow`; otherwise it does nothing. -/
def followTimerCallback (stepPlayer : String) (current : Option Goal) :
    Option Goal × List String :=
  match current with
  | some (Goal.follow _) => (none, ["Stopped following " ++ stepPlayer ++ "."])
  | other => (other, [])

/-- C9 counterexample: the timer checks only `instanceof GoalFollow`, not
goal identity: a timer armed by `follow Alice` that fires while a newer
`follow Bob` goal is current still clears that newer goal and sends the
notice, instead of detecting the supersession and doing nothing. -/
theorem c9_counterexample :
    followTimerCallback "Alice" (some (Goal.follow "Bob")) =
      (none, ["Stopped following Alice."]) ∧
    Goal.follow "Bob" ≠ Goal.follow "Alice" := by
  exact ⟨rfl, by decide⟩

/-- C9 (amended): the timer detects supersession by a GotoBlock goal or by a
cleared goal (it then does nothing), but any Follow-type current goal —
including a newer follow goal installed by a different command — is cleared
with the stopped-following notice. -/
theorem c9_follow_timer :
    (∀ p, followTimerCallback p none = (none, [])) ∧
    (∀ p x y z, followTimerCallback p (some (Goal.block x y z)) =
      (some (Goal.block x y z), [])) ∧
    (∀ p q, followTimerCallback p (some (Goal.follow q)) =
      (none, ["Stopped following " ++ p ++ "."])) :=
  ⟨fun _ => rfl, fun _ _ _ _ => rfl, fun _ _ => rfl⟩

/-- Validation applied by the Cerebras parseInstructionsLLM to one parsed
backend response (src/bot.js line 605: `parsed && Array.isArray(parsed.steps)`):
the parse result must be truthy and its `steps` field an array. -/
def jvStepsField (p : Jv) : Option (List Jv) :=
  if jvTruthy p then
    match jvField p "steps" with
    | some (Jv.jarr xs) => some xs
    | _ => none
  else none

/-- The Cerebras parseInstructionsLLM retry structure (src/bot.js lines
602-624).  `attempts b` is the parsed JSON of the backend's response to the
prompt variant with `strict = b` — `none` when the response was the
unavailable sentinel, contained no brace-delimited object, or failed
`JSON.parse` (all the ways `askCerebras` returns null, lines 580-600).
First the plain prompt is tried; if its result is not a truthy object with
a `steps` array, the strict variant is tried once; if that also fails the
plan is empty.  The function is total: no failure propagates to the caller. -/
def cerebrasPlan (attempts : Bool → Option Jv) : List Jv :=
  match (attempts false).bind jvStepsField with
  | some steps => steps
  | none =>
    match (attempts true).bind jvStepsField with
    | some steps => steps
    | none => []

/-- Number of backend calls the Cerebras parseInstructionsLLM makes: one
when the first response validates, two otherwise (src/bot.js lines 604-616). -/
def cerebrasPlanAttemptCount (attempts : Bool → Option Jv) : Nat :=
  match (attempts false).bind jvStepsField with
  | some _ => 1
  | none => 2

/-- The Gemini parseInstructionsLLM (src/bot.js lines 124-153): a single
backend call; on parse failure the catch returns `[]`, and on success the
result is `parsed.steps || []` with no array check and no retry.  The
strict-variant response (`attempts true`) is never consulted. -/
def geminiPlan (attempts : Bool → Option Jv) : Jv :=
  match attempts false with
  | some p =>
    match jvField p "steps" with
    | some v => if jvTruthy v then v else Jv.jarr []
    | none => Jv.jarr []
  | none => Jv.jarr []

/-- Number of backend calls the Gemini parseInstructionsLLM makes: always
exactly one (`geminiChat` at src/bot.js line 144). -/
def geminiPlanAttemptCount (_ : Bool → Option Jv) : Nat := 1

/-- The valid plan of spec Scenario 4, as parsed JSON:
a steps array holding one wait step of 5 seconds. -/
def scenario4Plan : Jv :=
  Jv.jobj [("steps", Jv.jarr [Jv.jobj [("action", Jv.jstr "wait"),
    ("seconds", Jv.jnum 5)]])]

/-- C7 counterexample: with a backend whose plain-prompt response fails to
parse while the strict-prompt response would yield the Scenario 4 wait
plan, the Gemini-variant planner returns the empty plan after a single
call: it never retries with the stricter prompt, so the claimed retry
behaviour fails on this variant. -/
theorem c7_counterexample :
    geminiPlan (fun b => if b then some scenario4Plan else none) = Jv.jarr [] ∧
    geminiPlanAttemptCount (fun b => if b then some scenario4Plan else none) = 1 ∧
    Jv.jarr [] ≠ Jv.jarr [Jv.jobj [("action", Jv.jstr "wait"),
      ("seconds", Jv.jnum 5)]] := by
  refine ⟨rfl, rfl, ?_⟩
  intro h
  injection h with h2
  exact List.cons_ne_nil _ _ h2.symm

/-- C7 (amended): the Cerebras-variant planner retries exactly once with the
strict prompt variant when the first response fails to parse or lacks a
`steps` array, returning the strict attempt's steps or the empty plan, and
returns the first attempt's steps without a second call when it validates;
the Gemini-variant planner makes a single attempt, never consults the
strict variant, and returns an empty plan on failure.  Both are total
functions: no failure is thrown to the caller. -/
theorem c7_planner_retry :
    (∀ attempts : Bool → Option Jv,
      (attempts false).bind jvStepsField = none →
      cerebrasPlanAttemptCount attempts = 2 ∧
      cerebrasPlan attempts = ((attempts true).bind jvStepsField).getD []) ∧
    (∀ (attempts : Bool → Option Jv) (xs : List Jv),
      (attempts false).bind jvStepsField = some xs →
      cerebrasPlanAttemptCount attempts = 1 ∧ cerebrasPlan attempts = xs) ∧
    (∀ attempts : Bool → Option Jv, attempts false = none →
      geminiPlan attempts = Jv.jarr []) ∧
    (∀ a a2 : Bool → Option Jv, a false = a2 false →
      geminiPlan a = geminiPlan a2 ∧
      geminiPlanAttemptCount a = geminiPlanAttemptCount a2) := by
  refine ⟨?_, ?_, ?_, ?_⟩
  · intro attempts h
    constructor
    · unfold cerebrasPlanAttemptCount
      rw [h]
    · unfold cerebrasPlan
      rw [h]
      cases hs : (attempts true).bind jvStepsField <;> rfl
  · intro attempts xs h
    constructor
    · unfold cerebrasPlanAttemptCount
      rw [h]
    · unfold cerebrasPlan
      rw [h]
  · intro attempts h
    unfold geminiPlan
    rw [h]
  · intro a a2 h
    constructor
    · unfold geminiPlan
      rw [h]
    · rfl

/-- C7 witness: the Scenario 4 run against the Cerebras planner — prose
(unparseable) on the first attempt, the valid plan on the strict retry —
makes exactly two calls and yields the wait step. -/
theorem c7_witness :
    cerebrasPlanAttemptCount (fun b => if b then some scenario4Plan else none) = 2 ∧
    cerebrasPlan (fun b => if b then some scenario4Plan else none) =
      [Jv.jobj [("action", Jv.jstr "wait"), ("seconds", Jv.jnum 5)]] := by
  have h := c7_planner_retry.1 (fun b => if b then some scenario4Plan else none) rfl
  exact ⟨h.1, h.2⟩

/-- One entry of the conversation log: `{ role, content }`. -/
structure MemEntry where
  role : String
  content : String

/-- The user-turn trim loop of the Cerebras handlers (src/bot.js lines
751-753 and 877-879): `while (memory.length > 50) memory.shift()` — shift
removes the oldest (head) entry until at most 50 remain. -/
def trimLoop : List MemEntry → List MemEntry
  | [] => []
  | x :: xs => if 50 < (x :: xs).length then trimLoop xs else x :: xs

/-- A user-turn append in the Cerebras handlers: push, then trim. -/
def memUserAppendC (m : List MemEntry) (e : MemEntry) : List MemEntry :=
  trimLoop (m ++ [e])

/-- One Cerebras handler invocation's effect on the in-memory log: the
user turn is appended with the trim loop, then (in the executed-plan and
conversational branches, src/bot.js lines 890, 929) an assistant turn is
pushed with no trim. -/
def memTurnC (m : List MemEntry) (u a : MemEntry) (withAssistant : Bool) :
    List MemEntry :=
  let m1 := memUserAppendC m u
  if withAssistant then m1 ++ [a] else m1

/-- A user-turn append in the Gemini message handler (src/bot.js lines
302-303): push, then a single `if (memory.length > 50) memory.shift()`. -/
def memUserAppendG (m : List MemEntry) (e : MemEntry) : List MemEntry :=
  let m2 := m ++ [e]
  if 50 < m2.length then m2.tail else m2

/-- One Gemini handler invocation's effect on the in-memory log:
single-shift user append, then an untrimmed assistant push (src/bot.js
lines 311, 340). -/
def memTurnG (m : List MemEntry) (u a : MemEntry) (withAssistant : Bool) :
    List MemEntry :=
  let m1 := memUserAppendG m u
  if withAssistant then m1 ++ [a] else m1

/-- A demonstration user turn. -/
def demoUser : MemEntry := ⟨"user", "Alice: phyll come here"⟩

/-- A demonstration assistant turn. -/
def demoAssistant : MemEntry := ⟨"assistant", "[Executed 1 instructions for Alice]"⟩

/-- C5 counterexample: 26 Cerebras handler turns that each append a user
turn and an assistant turn leave 51 entries in the in-memory log — the
assistant push after the trim exceeds the claimed 50-entry bound. -/
theorem c5_counterexample :
    ((fun m => memTurnC m demoUser demoAssistant true)^[26] []).length = 51 ∧
    ¬ ((fun m => memTurnC m demoUser demoAssistant true)^[26] []).length ≤ 50 := by
  constructor
  · rfl
  · decide

/-- The trim loop always leaves at most 50 entries. -/
theorem trimLoop_length_le : ∀ m : List MemEntry, (trimLoop m).length ≤ 50 := by
  intro m
  induction m with
  | nil => simp [trimLoop]
  | cons x xs ih =>
    rw [trimLoop]
    by_cases h : 50 < (x :: xs).length
    · rw [if_pos h]
      exact ih
    · rw [if_neg h]
      omega

/-- The trim loop leaves a list of at most 50 entries unchanged. -/
theorem trimLoop_of_le {m : List MemEntry} (h : m.length ≤ 50) :
    trimLoop m = m := by
  cases m with
  | nil => rfl
  | cons x xs =>
    rw [trimLoop, if_neg (by omega)]

/-- C5 (amended): in the Cerebras handlers the in-memory log holds at most
51 entries after any sequence of handler turns — each user-turn append
trims to at most 50, evicting oldest first (from a full log of 50 the
oldest entry is dropped and the new turn appended), but the assistant-turn
append does not trim and can leave 51; the Gemini message handler trims
only one entry per user turn, so its in-memory log grows without bound
(52 entries after 27 two-append turns); only the persisted snapshot is
capped to the last 50 (`memory.slice(-50)` in saveMemory). -/
theorem c5_memory_bound :
    (∀ (m : List MemEntry) (e : MemEntry), (memUserAppendC m e).length ≤ 50) ∧
    (∀ (m : List MemEntry) (u a : MemEntry) (b : Bool),
      (memTurnC m u a b).length ≤ 51) ∧
    (∀ (m : List MemEntry) (u : MemEntry), m.length = 50 →
      memUserAppendC m u = m.tail ++ [u]) ∧
    ((fun m => memTurnG m demoUser demoAssistant true)^[27] []).length = 52 := by
  refine ⟨?_, ?_, ?_, rfl⟩
  · intro m e
    exact trimLoop_length_le _
  · intro m u a b
    unfold memTurnC
    have h1 : (memUserAppendC m u).length ≤ 50 := trimLoop_length_le _
    by_cases hb : b = true
    · rw [hb, if_pos rfl]
      simp only [List.length_append, List.length_cons, List.length_nil]
      omega
    · rw [if_neg (by simpa using hb)]
      omega
  · intro m u h
    cases m with
    | nil => simp at h
    | cons x xs =>
      have hx : xs.length = 49 := by
        simp only [List.length_cons] at h
        omega
      have h1 : 50 < (x :: (xs ++ [u])).length := by
        simp only [List.length_cons, List.length_append, List.length_nil]
        omega
      have h2 : (xs ++ [u]).length ≤ 50 := by
        simp only [List.length_append, List.length_cons, List.length_nil]
        omega
      unfold memUserAppendC
      rw [List.cons_append, trimLoop, if_pos h1, trimLoop_of_le h2]
      rfl

/-- C5 witness: from a full log of 50 entries, a user-turn append evicts
exactly the oldest entry and appends the new turn. -/
theorem c5_witness :
    memUserAppendC (List.replicate 50 demoAssistant) demoUser =
      (List.replicate 50 demoAssistant).tail ++ [demoUser] :=
  c5_memory_bound.2.2.1 (List.replicate 50 demoAssistant) demoUser
    (by simp)

/-- Does `hay` start with `sub`? -/
def startsWithChars : List Char → List Char → Bool
  | _, [] => true
  | [], _ :: _ => false
  | h :: hs, n :: ns => h = n && startsWithChars hs ns

/-- Does `hay` contain `sub` as a contiguous run? -/
def charsContain (hay sub : List Char) : Bool :=
  match hay with
  | [] => sub.isEmpty
  | _ :: t => startsWithChars hay sub || charsContain t sub

/-- JS `hay.includes(sub)`: case-sensitive substring containment. -/
def jsIncludes (hay sub : String) : Bool :=
  charsContain hay.toList sub.toList

/-- A JS regex word character: `[A-Za-z0-9_]`. -/
def isWordChar (c : Char) : Bool := c.isAlphanum || c = '_'

/-- Maximal runs of characters satisfying `keep`, in order. -/
def runsBy (keep : Char → Bool) : List Char → List Char → List (List Char)
  | [], acc => if acc.isEmpty then [] else [acc.reverse]
  | c :: cs, acc =>
    if keep c then runsBy keep cs (c :: acc)
    else if acc.isEmpty then runsBy keep cs []
    else acc.reverse :: runsBy keep cs []

/-- Maximal word-character runs of a string, modelling the positions where
a `\b(w1|w2|...)\b` regex over word-only alternatives can match. -/
def wordTokens (s : String) : List String :=
  (runsBy isWordChar s.toList []).map String.mk

/-- Whitespace-separated tokens of a string. -/
def wsTokens (s : String) : List String :=
  (runsBy (fun c => !c.isWhitespace) s.toList []).map String.mk

/-- ASCII lowercasing, as JS `toLowerCase` behaves on the ASCII names and
messages this pipeline handles. -/
def lowerStr (s : String) : String :=
  String.mk (s.toList.map Char.toLower)

/-- Test of a case-insensitive `\b(k1|k2|...)\b` regex whose alternatives
are bare words: some maximal word run of the text equals a keyword. -/
def hasKeyword (keys : List String) (s : String) : Bool :=
  (wordTokens s).any (fun w => keys.contains (lowerStr w))

/-- First match of a case-insensitive `\b(k1|k2|...)\s+(\w+)\b` command
regex, modelled over whitespace-separated tokens: scan for a token equal to
a keyword and capture the leading word characters of the following token. -/
def scanCmd (keys : List String) : List String → Option String
  | [] => none
  | w :: rest =>
    if keys.contains (lowerStr w) then
      match rest with
      | t :: _ =>
        let cap := t.toList.takeWhile isWordChar
        if cap.isEmpty then scanCmd keys rest else some (String.mk cap)
      | [] => none
    else scanCmd keys rest

/-- Configured owner name (src/bot.js line 12/391, default configuration). -/
def ownerName : String := "TryChloroform"

/-- Configured call-names the agent answers to (src/bot.js line 13/392). -/
def botNames : List String := ["trychlorophyll", "phyll"]

/-- The agent's own session username (src/bot.js line 75/493, default
configuration). -/
def botUsername : String := "phyll"

/-- The owner's add-trust branch of the Cerebras whisper handler
(src/bot.js lines 802-813), identical in src/unnamed/part_000 lines
389-400: push the target unless present, with distinct replies. -/
def addTrustOp (trusted : List String) (target : String) :
    List String × String :=
  if trusted.contains target then (trusted, target ++ " is already trusted.")
  else (trusted ++ [target], target ++ " is now trusted!")

/-- The owner's remove-trust branch of the Cerebras whisper handler
(src/bot.js lines 815-826), identical in src/unnamed/part_000 lines
402-413: filter the target out unconditionally — there is no owner guard —
with the reply distinguishing whether a removal occurred. -/
def delTrustOp (trusted : List String) (target : String) :
    List String × String :=
  let wasRemoved := trusted.contains target
  (trusted.filter (fun p => p != target),
    if wasRemoved then target ++ " is no longer trusted."
    else target ++ " wasn\x27t trusted anyway.")

/-- The owner's add-ignore branch of the Cerebras whisper handler
(src/bot.js lines 828-839). -/
def addIgnoreOp (ignored : List String) (target : String) :
    List String × String :=
  if ignored.contains target then (ignored, target ++ " is already ignored.")
  else (ignored ++ [target], target ++ " is now ignored.")

/-- The owner's remove-ignore branch of the Cerebras whisper handler
(src/bot.js lines 841-852). -/
def delIgnoreOp (ignored : List String) (target : String) :
    List String × String :=
  let wasRemoved := ignored.contains target
  (ignored.filter (fun p => p != target),
    if wasRemoved then target ++ " is no longer ignored."
    else target ++ " wasn\x27t ignored anyway.")

/-- The owner's add-trust branch of the Gemini message handler (src/bot.js
lines 279-290): same set update, reply "is now trusted." with a period. -/
def geminiAddTrustOp (trusted : List String) (target : String) :
    List String × String :=
  if trusted.contains target then (trusted, target ++ " is already trusted.")
  else (trusted ++ [target], target ++ " is now trusted.")

/-- The owner's remove-trust branch of the Gemini message handler
(src/bot.js lines 292-298) and of the ArliAI variant
(src/unnamed/part_002): unconditional filter and a single reply that does
not distinguish whether a removal occurred. -/
def geminiDelTrustOp (trusted : List String) (target : String) :
    List String × String :=
  (trusted.filter (fun p => p != target), target ++ " is no longer trusted.")

/-- The ArliAI variant's add-trust branch (src/unnamed/part_002 line 126):
when the target is already trusted the branch neither replies nor returns —
the handler falls through with no add-trust reply at all. -/
def arliAddTrustOp (trusted : List String) (target : String) :
    List String × Option String :=
  if trusted.contains target then (trusted, none)
  else (trusted ++ [target], some (target ++ " is now trusted."))

/-- C6 counterexample: in the Gemini message handler, removing a name that
is not in TrustedSet leaves the set unchanged but replies "is no longer
trusted." — the very reply produced when a removal actually occurs — not a
distinct "wasn\x27t trusted" reply. -/
theorem c6_counterexample :
    (geminiDelTrustOp ["TryChloroform"] "Alice").1 = ["TryChloroform"] ∧
    (geminiDelTrustOp ["TryChloroform"] "Alice").2 =
      "Alice is no longer trusted." ∧
    (geminiDelTrustOp ["TryChloroform", "Alice"] "Alice").2 =
      "Alice is no longer trusted." := by
  exact ⟨rfl, rfl, rfl⟩

/-- Membership never survives `delTrustOp` of the same name. -/
theorem delTrustOp_not_mem (tr : List String) (target : String) :
    target ∉ (delTrustOp tr target).1 := by
  intro hmem
  rw [delTrustOp] at hmem
  simp only [List.mem_filter] at hmem
  exact absurd hmem.2 (by simp)

/-- A `contains = false` list has no membership of that element. -/
theorem contains_false_not_mem {l : List String} {x : String}
    (h : l.contains x = false) : x ∉ l := by
  intro hmem
  simp [List.elem_eq_mem] at h
  exact h hmem

/-- C6 (amended): in the Cerebras whisper handler (and src/unnamed/part_000)
owner list-management is idempotent with distinguishing replies: adding a
present name and removing an absent name leave TrustedSet unchanged, with
the "already trusted" and "wasn\x27t trusted anyway" replies, and the
absent-removal reply differs from the actual-removal reply.  In the Gemini
message handler the removal reply never distinguishes, and in the ArliAI
variant adding a present name produces no reply at all. -/
theorem c6_idempotent_list_management :
    (∀ (tr : List String) (x : String), tr.contains x = true →
      addTrustOp tr x = (tr, x ++ " is already trusted.")) ∧
    (∀ (tr : List String) (x : String), tr.contains x = false →
      delTrustOp tr x = (tr, x ++ " wasn\x27t trusted anyway.")) ∧
    (∀ x : String,
      x ++ " wasn\x27t trusted anyway." ≠ x ++ " is no longer trusted.") ∧
    (∀ (tr : List String) (x : String), tr.contains x = false →
      geminiDelTrustOp tr x = (tr, x ++ " is no longer trusted.")) ∧
    (∀ (tr : List String) (x : String), tr.contains x = true →
      arliAddTrustOp tr x = (tr, none)) := by
  refine ⟨?_, ?_, ?_, ?_, ?_⟩
  · intro tr x h
    rw [addTrustOp, if_pos h]
  · intro tr x h
    rw [delTrustOp]
    have hne : tr.filter (fun p => p != x) = tr := by
      apply List.filter_eq_self.mpr
      intro a ha
      have : a ≠ x := by
        intro he
        exact contains_false_not_mem h (he ▸ ha)
      simp [this]
    rw [hne, h]
    rfl
  · intro x h
    have hl := congrArg String.length h
    rw [String.length_append, String.length_append] at hl
    have h1 : (" wasn\x27t trusted anyway." : String).length = 23 := rfl
    have h2 : (" is no longer trusted." : String).length = 22 := rfl
    rw [h1, h2] at hl
    omega
  · intro tr x h
    rw [geminiDelTrustOp]
    have hne : tr.filter (fun p => p != x) = tr := by
      apply List.filter_eq_self.mpr
      intro a ha
      have : a ≠ x := by
        intro he
        exact contains_false_not_mem h (he ▸ ha)
      simp [this]
    rw [hne]
  · intro tr x h
    rw [arliAddTrustOp, if_pos h]

/-- C6 witness: concrete idempotent add and remove with their distinct
replies. -/
theorem c6_witness :
    addTrustOp ["Alice"] "Alice" = (["Alice"], "Alice is already trusted.") ∧
    delTrustOp ["Alice"] "Bob" = (["Alice"], "Bob wasn\x27t trusted anyway.") ∧
    "Bob wasn\x27t trusted anyway." ≠ "Bob is no longer trusted." :=
  ⟨c6_idempotent_list_management.1 ["Alice"] "Alice" (by decide),
   c6_idempotent_list_management.2.1 ["Alice"] "Bob" (by decide),
   c6_idempotent_list_management.2.2.1 "Bob"⟩

/-- Mutable pipeline state: the trusted and ignored name lists, the
in-memory conversation log, and whether the pathfinder plugin has been
lazily loaded. -/
structure BotState where
  trusted : List String
  ignored : List String
  memory : List MemEntry
  pathfinderLoaded : Bool

/-- The startup state under the default configuration: the trusted list is
initialised to `[ownerName]` (src/bot.js line 14/393), the ignored list and
memory are empty, the pathfinder is not yet loaded. -/
def initialState : BotState :=
  ⟨[ownerName], [], [], false⟩

/-- How one handler invocation disposed of an inbound message. -/
inductive Outcome where
  | dropped
  | ownerHandled
  | planned (steps : List Jv)
  | refusal
  | convo

/-- Result of one handler invocation: the updated state, the disposition,
the outbound lines, and the `setGoal` calls made while handling. -/
structure HandlerResult where
  st : BotState
  outcome : Outcome
  replies : List String
  goalCalls : List (Option Goal)

/-- A discarded message: state unchanged, nothing sent, no controller call. -/
def dropResult (st : BotState) : HandlerResult :=
  ⟨st, Outcome.dropped, [], []⟩

/-- Keywords of the trusted-instruction precheck regex of the Cerebras
whisper handler (src/bot.js line 884). -/
def trustedCmdKeywords : List String :=
  ["follow", "goto", "come", "hold", "drop", "tp", "tpa", "wait", "mine",
    "build", "attack", "go", "move"]

/-- Keywords of the untrusted-refusal regex of the Cerebras whisper handler
(src/bot.js line 903), identical in src/unnamed/part_000 line 467. -/
def untrustedKeywords : List String :=
  ["follow", "goto", "come", "hold", "drop", "tp", "tpa", "wait", "mine",
    "build", "attack"]

/-- Keywords of the untrusted-refusal regex of the Gemini message handler
(src/bot.js line 321): mine, build and attack are absent. -/
def geminiKeywords : List String :=
  ["follow", "goto", "come", "hold", "drop", "tp", "tpa", "wait"]

/-- The fixed ask-the-owner refusal of the Cerebras whisper handler
(src/bot.js line 904). -/
def cerebrasRefusalText : String :=
  "Sorry, only trusted players can give me commands. Ask " ++ ownerName ++ "!"

/-- The fixed ask-the-owner refusal of the Gemini message handler
(src/bot.js line 322). -/
def geminiRefusalText : String :=
  "My Dad (" ++ ownerName ++ ") won\x27t let me."

/-- Placeholder for a backend-generated conversational reply, whose text
depends on the generative backend and is outside this model. -/
def conversationalPlaceholder : String := "[conversational reply]"

/-- Placeholder for the owner status report (health, food, position), whose
text depends on live telemetry and is outside this model. -/
def statusReplyText : String := "[status report]"

/-- The owner-only command block of the Cerebras whisper handler
(src/bot.js lines 796-873): the four list-management regexes tried in
order, then the `status`, `trusted list` and `stop` substring commands.
`none` means no owner command matched and the handler falls through. -/
def ownerWhisperCmd (st : BotState) (message msgLower : String) :
    Option HandlerResult :=
  let ws := wsTokens message
  match scanCmd ["trust"] ws with
  | some target =>
    let r := addTrustOp st.trusted target
    some ⟨{ st with trusted := r.1 }, Outcome.ownerHandled, [r.2], []⟩
  | none =>
    match scanCmd ["forget", "untrust", "revoke"] ws with
    | some target =>
      let r := delTrustOp st.trusted target
      some ⟨{ st with trusted := r.1 }, Outcome.ownerHandled, [r.2], []⟩
    | none =>
      match scanCmd ["ignore"] ws with
      | some target =>
        let r := addIgnoreOp st.ignored target
        some ⟨{ st with ignored := r.1 }, Outcome.ownerHandled, [r.2], []⟩
      | none =>
        match scanCmd ["unignore", "forgive"] ws with
        | some target =>
          let r := delIgnoreOp st.ignored target
          some ⟨{ st with ignored := r.1 }, Outcome.ownerHandled, [r.2], []⟩
        | none =>
          if jsIncludes msgLower "status" then
            some ⟨st, Outcome.ownerHandled, [statusReplyText], []⟩
          else if jsIncludes msgLower "trusted list" then
            some ⟨st, Outcome.ownerHandled,
              ["Trusted players: " ++ String.intercalate ", " st.trusted], []⟩
          else if jsIncludes msgLower "stop" then
            if st.pathfinderLoaded then
              some ⟨st, Outcome.ownerHandled, ["Stopped all movement."], [none]⟩
            else
              some ⟨st, Outcome.ownerHandled, [], []⟩
          else none

/-- The tail of the Cerebras whisper handler after the trusted-instruction
branch declined (src/bot.js lines 902-938): untrusted actors using an
action keyword get the fixed refusal; everyone else gets a conversational
reply, appended to memory as an assistant turn. -/
def cerebrasTail (st1 : BotState) (isTrusted : Bool) (msgLower : String) :
    HandlerResult :=
  if (!isTrusted) && hasKeyword untrustedKeywords msgLower then
    ⟨st1, Outcome.refusal, [cerebrasRefusalText], []⟩
  else
    ⟨{ st1 with memory := st1.memory ++ [⟨"assistant", conversationalPlaceholder⟩] },
      Outcome.convo, [conversationalPlaceholder], []⟩

/-- The Cerebras whisper handler after the owner block fell through
(src/bot.js lines 875-938): append the user turn with the trim loop, then
plan and execute for a trusted actor whose text matches the instruction
precheck, else fall to the refusal/conversation tail. -/
def cerebrasAfterGate (st : BotState) (planner : String → String → List Jv)
    (online : List String) (username message : String) : HandlerResult :=
  let newMem := memUserAppendC st.memory ⟨"user", username ++ " (whisper): " ++ message⟩
  let st1 := { st with memory := newMem }
  if st.trusted.contains username && hasKeyword trustedCmdKeywords (lowerStr message) then
    let steps := planner username message
    if 0 < steps.length then
      { st := { st1 with memory := st1.memory ++
          [⟨"assistant", "[Executed " ++ toString steps.length ++
            " instructions for " ++ username ++ "]"⟩] },
        outcome := Outcome.planned steps,
        replies := (steps.map (fun s => (cerebrasExecStep username online s).replies)).flatten,
        goalCalls := (steps.map (fun s => (cerebrasExecStep username online s).calls)).flatten }
    else cerebrasTail st1 (st.trusted.contains username) (lowerStr message)
  else cerebrasTail st1 (st.trusted.contains username) (lowerStr message)

/-- The Cerebras whisper handler (src/bot.js lines 781-938): drop the
agent's own or an ignored actor's whisper, run owner commands, else gate
and plan.  `planner` abstracts `parseInstructionsLLM`'s parsed result and
`online` the players with a live entity. -/
def whisperHandler (st : BotState) (planner : String → String → List Jv)
    (online : List String) (username message : String) : HandlerResult :=
  if username = "" then dropResult st
  else if username = botUsername then dropResult st
  else if st.ignored.contains username then dropResult st
  else if username = ownerName then
    match ownerWhisperCmd st message (lowerStr message) with
    | some r => r
    | none => cerebrasAfterGate st planner online username message
  else cerebrasAfterGate st planner online username message

/-- The owner-only command block of the Gemini message handler (src/bot.js
lines 275-299): only the add-trust and remove-trust regexes. -/
def geminiOwnerCmd (st : BotState) (msgContent : String) :
    Option HandlerResult :=
  let ws := wsTokens msgContent
  match scanCmd ["trust"] ws with
  | some target =>
    let r := geminiAddTrustOp st.trusted target
    some ⟨{ st with trusted := r.1 }, Outcome.ownerHandled, [r.2], []⟩
  | none =>
    match scanCmd ["forget", "untrust", "revoke"] ws with
    | some target =>
      let r := geminiDelTrustOp st.trusted target
      some ⟨{ st with trusted := r.1 }, Outcome.ownerHandled, [r.2], []⟩
    | none => none

/-- The tail of the Gemini message handler (src/bot.js lines 320-346):
refusal for untrusted actors using one of its eight keywords, else a
conversational reply appended to memory. -/
def geminiTail (st1 : BotState) (isTrusted : Bool) (msgLower : String) :
    HandlerResult :=
  if (!isTrusted) && hasKeyword geminiKeywords msgLower then
    ⟨st1, Outcome.refusal, [geminiRefusalText], []⟩
  else
    ⟨{ st1 with memory := st1.memory ++ [⟨"assistant", conversationalPlaceholder⟩] },
      Outcome.convo, [conversationalPlaceholder], []⟩

/-- The Gemini message handler after the owner block fell through
(src/bot.js lines 301-346): single-shift user append, then planning for a
trusted actor (no keyword precheck), else the refusal/conversation tail. -/
def geminiAfterGate (st : BotState) (planner : String → String → List Jv)
    (online : List String) (username msgContent : String) : HandlerResult :=
  let newMem := memUserAppendG st.memory ⟨"user", username ++ ": " ++ msgContent⟩
  let st1 := { st with memory := newMem }
  if st.trusted.contains username then
    let steps := planner username msgContent
    if 0 < steps.length then
      { st := { st1 with memory := st1.memory ++ [⟨"assistant", "[Executed instructions]"⟩] },
        outcome := Outcome.planned steps,
        replies := (steps.map (fun s => (geminiExecStep username online s).replies)).flatten ++
          ["Finished all steps"],
        goalCalls := (steps.map (fun s => (geminiExecStep username online s).calls)).flatten }
    else geminiTail st1 (st.trusted.contains username) (lowerStr msgContent)
  else geminiTail st1 (st.trusted.contains username) (lowerStr msgContent)

/-- The Gemini message handler's per-actor stage (src/bot.js lines 267-346),
entered once a `(username, msgContent)` pair has been extracted: mention
gate on the call-names, owner commands, then planning or tail. -/
def geminiGate (st : BotState) (planner : String → String → List Jv)
    (online : List String) (username msgContent : String) : HandlerResult :=
  if botNames.any (fun n => jsIncludes (lowerStr msgContent) n) then
    if username = ownerName then
      match geminiOwnerCmd st msgContent with
      | some r => r
      | none => geminiAfterGate st planner online username msgContent
    else geminiAfterGate st planner online username msgContent
  else dropResult st

/-- The `/^<(\w+)>/` username extraction and `/^<\w+>\s*/` prefix strip of
the Gemini message handler (src/bot.js lines 260-264). -/
def parseAngleName (raw : String) : Option (String × String) :=
  match raw.toList with
  | '<' :: rest =>
    let name := rest.takeWhile isWordChar
    if name.isEmpty then none
    else
      match rest.drop name.length with
      | '>' :: tail =>
        some (String.mk name, String.mk (tail.dropWhile Char.isWhitespace))
      | _ => none
  | _ => none

/-- The Gemini message handler entry (src/bot.js lines 251-346): drop empty
lines, drop any line whose raw text contains the agent's own username, drop
lines without a `<name>` prefix, then hand to the per-actor stage. -/
def geminiMessageHandler (st : BotState) (planner : String → String → List Jv)
    (online : List String) (raw : String) : HandlerResult :=
  if raw = "" then dropResult st
  else if jsIncludes raw botUsername then dropResult st
  else
    match parseAngleName raw with
    | none => dropResult st
    | some (username, msgContent) =>
      geminiGate st planner online username msgContent

/-- An untrusted, non-ignored, non-owner actor whose whisper matches the
untrusted-keyword regex always receives the fixed refusal. -/
theorem cerebrasAfterGate_untrusted (st : BotState)
    (planner : String → String → List Jv) (online : List String)
    (u m : String) (htr : st.trusted.contains u = false)
    (hk : hasKeyword untrustedKeywords (lowerStr m) = true) :
    cerebrasAfterGate st planner online u m =
      ⟨{ st with memory :=
          memUserAppendC st.memory ⟨"user", u ++ " (whisper): " ++ m⟩ },
        Outcome.refusal, [cerebrasRefusalText], []⟩ := by
  unfold cerebrasAfterGate cerebrasTail
  rw [htr]
  simp [hk]

/-- An untrusted, non-owner actor whose mentioned message matches the
Gemini keyword regex always receives the fixed refusal. -/
theorem geminiAfterGate_untrusted (st : BotState)
    (planner : String → String → List Jv) (online : List String)
    (u m : String) (htr : st.trusted.contains u = false)
    (hk : hasKeyword geminiKeywords (lowerStr m) = true) :
    geminiAfterGate st planner online u m =
      ⟨{ st with memory := memUserAppendG st.memory ⟨"user", u ++ ": " ++ m⟩ },
        Outcome.refusal, [geminiRefusalText], []⟩ := by
  unfold geminiAfterGate geminiTail
  rw [htr]
  simp [hk]

/-- C1 (amended): in the Cerebras whisper handler, every whisper from an
actor not in TrustedSet (not ignored, not the owner, not the agent itself)
whose text contains any of
follow/goto/come/tp/tpa/wait/mine/build/attack/hold/drop is answered with
the fixed ask-the-owner refusal and processing stops: the outcome is the
refusal, the only reply is the refusal line, no plan is produced and the
movement controller receives no call.  In the Gemini message handler the
same holds only for the keywords follow/goto/come/hold/drop/tp/tpa/wait —
its regex omits mine, build and attack, which fall through to a
conversational reply (still with no plan and no controller call). -/
theorem c1_untrusted_keyword_refusal :
    (∀ (st : BotState) (planner : String → String → List Jv)
        (online : List String) (u m : String),
      u ≠ "" → u ≠ botUsername → st.ignored.contains u = false →
      u ≠ ownerName → st.trusted.contains u = false →
      hasKeyword untrustedKeywords (lowerStr m) = true →
      (whisperHandler st planner online u m).outcome = Outcome.refusal ∧
      (whisperHandler st planner online u m).replies = [cerebrasRefusalText] ∧
      (whisperHandler st planner online u m).goalCalls = []) ∧
    (∀ (st : BotState) (planner : String → String → List Jv)
        (online : List String) (u m : String),
      botNames.any (fun n => jsIncludes (lowerStr m) n) = true →
      u ≠ ownerName → st.trusted.contains u = false →
      hasKeyword geminiKeywords (lowerStr m) = true →
      (geminiGate st planner online u m).outcome = Outcome.refusal ∧
      (geminiGate st planner online u m).replies = [geminiRefusalText] ∧
      (geminiGate st planner online u m).goalCalls = []) := by
  constructor
  · intro st planner online u m hu hbot hig hown htr hk
    have hstep : whisperHandler st planner online u m =
        cerebrasAfterGate st planner online u m := by
      unfold whisperHandler
      rw [if_neg hu, if_neg hbot]
      rw [if_neg (by simp only [hig]; exact Bool.false_ne_true), if_neg hown]
    rw [hstep, cerebrasAfterGate_untrusted st planner online u m htr hk]
    exact ⟨rfl, rfl, rfl⟩
  · intro st planner online u m hm hown htr hk
    have hstep : geminiGate st planner online u m =
        geminiAfterGate st planner online u m := by
      unfold geminiGate
      rw [if_pos hm, if_neg hown]
    rw [hstep, geminiAfterGate_untrusted st planner online u m htr hk]
    exact ⟨rfl, rfl, rfl⟩

/-- C1 witness: untrusted Bob whispering "follow me" gets the fixed refusal
with no plan and no controller call. -/
theorem c1_witness :
    (whisperHandler initialState (fun _ _ => []) [] "Bob" "follow me").outcome =
      Outcome.refusal ∧
    (whisperHandler initialState (fun _ _ => []) [] "Bob" "follow me").replies =
      [cerebrasRefusalText] ∧
    (whisperHandler initialState (fun _ _ => []) [] "Bob" "follow me").goalCalls =
      [] :=
  c1_untrusted_keyword_refusal.1 initialState (fun _ _ => []) [] "Bob"
    "follow me" (by decide) (by decide) (by decide) (by decide) (by decide)
    (by decide)

/-- C1 counterexample: in the Gemini message handler an untrusted actor
saying "mine" — one of the action-verb keywords of the claim — is not
refused: the regex at src/bot.js line 321 omits mine/build/attack, so the
message falls through to the conversational branch instead of the fixed
ask-the-owner refusal. -/
theorem c1_counterexample :
    (geminiMessageHandler initialState (fun _ _ => []) []
        "<Bob> Phyll mine diamonds").outcome = Outcome.convo ∧
    hasKeyword untrustedKeywords (lowerStr "Phyll mine diamonds") = true ∧
    Outcome.convo ≠ Outcome.refusal := by
  refine ⟨rfl, by decide, ?_⟩
  intro h
  exact Outcome.noConfusion h

/-- C2 counterexample: from the default startup state, a single owner
whisper "untrust TryChloroform" removes the owner's own name from
TrustedSet — the remove-trust branch has no owner guard — so the owner does
not remain in TrustedSet under all operation sequences. -/
theorem c2_counterexample :
    initialState.trusted.contains ownerName = true ∧
    (whisperHandler initialState (fun _ _ => []) [] ownerName
        "untrust TryChloroform").st.trusted.contains ownerName = false ∧
    (whisperHandler initialState (fun _ _ => []) [] ownerName
        "untrust TryChloroform").replies =
      ["TryChloroform is no longer trusted."] := by
  exact ⟨rfl, rfl, rfl⟩

/-- C2 (amended): the owner's name is in TrustedSet at startup by default
initialisation, but it is not protected: the remove-trust operation removes
its target unconditionally, so the owner's remove-trust command naming the
owner removes the owner from TrustedSet (from any trusted list). -/
theorem c2_owner_removable :
    initialState.trusted.contains ownerName = true ∧
    (∀ tr : List String, ownerName ∉ (delTrustOp tr ownerName).1) :=
  ⟨rfl, fun tr => delTrustOp_not_mem tr ownerName⟩

/-- C10 (confirmed): the Gemini message handler discards every inbound line
whose raw text contains the agent's own username anywhere — before any
username extraction, parsing or reply — and the default username "phyll" is
itself one of the configured call-names, so a message addressing the agent
by that exact name is dropped rather than processed. -/
theorem c10_self_name_drop :
    (∀ (st : BotState) (planner : String → String → List Jv)
        (online : List String) (raw : String),
      jsIncludes raw botUsername = true →
      geminiMessageHandler st planner online raw = dropResult st) ∧
    botNames.contains botUsername = true := by
  constructor
  · intro st planner online raw h
    unfold geminiMessageHandler
    by_cases he : raw = ""
    · subst he
      exact absurd h (by decide)
    · rw [if_neg he, if_pos (by simp [h])]
  · decide

/-- C10 witness: a line addressing the bot by its exact username is
dropped whole. -/
theorem c10_witness :
    geminiMessageHandler initialState (fun _ _ => []) []
      "<Bob> phyll come here" = dropResult initialState :=
  c10_self_name_drop.1 initialState (fun _ _ => []) [] "<Bob> phyll come here"
    (by decide)

end Phyll
